import Mathlib

/-!
# Verification of the monikim random-image HTTP server

Shallow embedding of `src/main.go` (a small Go HTTP server that serves a
random image from a configured directory) together with theorems settling
the specification claims.

Conventions of the embedding:
* machine state touched by the handler (response status, response headers,
  response body) is returned explicitly;
* the filesystem is a parameter: `readDir` models `os.ReadDir` (`none` =
  read error) and `readFile` models a successful `http.ServeFile` body
  read (`none` = unreadable file);
* the time-seeded random index produced by `rand.Intn(n)` is modelled by an
  arbitrary natural number reduced modulo `n`, so theorems quantify over
  every possible random outcome;
* response headers are a finite map `String → Option String`, matching the
  replace semantics of Go's `Header().Set`; bodies of plain-text error
  responses and the auxiliary headers added by `http.Error` are not
  modelled, since no claim mentions them.
-/

namespace Monikim

/-- Response headers as a map from header name to value, with
`Header().Set` replace semantics. -/
def Headers := String → Option String

/-- The empty header map of a fresh `http.ResponseWriter`. -/
def emptyHeaders : Headers := fun _ => none

/-- `w.Header().Set(k, v)`: replace the value stored under `k`. -/
def Headers.set (hs : Headers) (k v : String) : Headers :=
  fun k2 => if k2 = k then some v else hs k2

/-- One directory entry as returned by `os.ReadDir` (`os.DirEntry`):
a name and whether the entry is a directory. -/
structure DirEntry where
  name : String
  isDir : Bool
  deriving DecidableEq

/-- The filesystem the server runs against. `readDir` models `os.ReadDir`
(`none` is a read error), `readFile` models reading the bytes of a file
(`none` is an unreadable/absent file). -/
structure FileSystem where
  readDir : String → Option (List DirEntry)
  readFile : String → Option (List Nat)

/-- The `Config` struct of `src/main.go` (lines 17-31), loaded once from
`config.yaml`.  The Go map `ParamRedirects` is modelled as an association
list. -/
structure Config where
  Port : String
  ImageDir : String
  AllowedExtensions : List String
  DisableFileTypeCheck : Bool
  FaviconPath : String
  CorsEnabled : Bool
  AllowedOrigins : List String
  AllowedMethods : List String
  AllowedHeaders : List String
  Mode : String
  ParamRedirects : List (String × String)
  RefererRestriction : Bool
  AllowedReferers : List String

/-- The parts of an inbound `http.Request` the handler can observe:
request path, decoded query parameters, and the `Referer` and `Origin`
headers (`""` models an absent header, as `r.Referer()` and
`r.Header.Get` return the empty string then). -/
structure Request where
  path : String
  queryParams : List (String × String)
  referer : String
  origin : String

/-- An HTTP response as far as the claims observe it: status code,
headers, and the served body bytes (empty for error and redirect
responses; the plain-text error messages are not modelled). -/
structure Response where
  status : Nat
  headers : Headers
  body : List Nat

/-- Filesystem side effects performed while handling one request, in
order. -/
inductive FsEvent where
  | dirRead (path : String)
  | fileRead (path : String)
  deriving DecidableEq

/-- Suffix of the character list starting at its last `.`, if any. -/
def lastDotSuffix : List Char → Option (List Char)
  | [] => none
  | c :: rest =>
    match lastDotSuffix rest with
    | some s => some s
    | none => if c = '.' then some (c :: rest) else none

/-- `filepath.Ext` restricted to bare file names (no path separators,
which directory-entry names never contain): the suffix beginning at the
final dot, or `""` when the name has no dot. -/
def goExt (s : String) : String :=
  match lastDotSuffix s.data with
  | some cs => String.mk cs
  | none => ""

/-- `fmt.Sprintf("%s", xs)` for a Go `[]string`: the elements joined by
single spaces, between square brackets. -/
def goStringSliceFormat (xs : List String) : String :=
  "[" ++ String.intercalate " " xs ++ "]"

/-- `filepath.Join(dir, name)` for the two-argument case: the components
joined by the path separator (Go additionally runs `Clean` on the result,
e.g. stripping a leading `./`; no claim depends on that normalization and
it is not modelled). -/
def goJoin (dir name : String) : String :=
  if dir = "" then name
  else if name = "" then dir
  else dir ++ "/" ++ name

/-- `isValidExtension` (src/main.go lines 74-82): the file's
`filepath.Ext` equals one of the allowed extension strings. -/
def isValidExtension (fileName : String) (allowedExtensions : List String) : Bool :=
  allowedExtensions.any (fun allowed => goExt fileName == allowed)

/-- `validateReferer` (src/main.go lines 85-96): an empty allow-list
permits every request; otherwise the `Referer` header must equal one
entry exactly. -/
def validateReferer (referer : String) (allowedReferers : List String) : Bool :=
  if allowedReferers.isEmpty then true
  else allowedReferers.any (fun allowed => referer == allowed)

/-- `handleCORS` (src/main.go lines 50-71): when CORS is enabled, set
`Access-Control-Allow-Origin` to `*`, overridden by the first allowed
origin that is `*` or equals the request's `Origin` header; set the
methods and headers lists via `fmt.Sprintf("%s", slice)` when the
configured lists are non-empty, else hardcoded defaults. -/
def handleCORS (cfg : Config) (r : Request) (hs : Headers) : Headers :=
  if cfg.CorsEnabled then
    let hs1 := hs.set "Access-Control-Allow-Origin" "*"
    let hs2 :=
      if cfg.AllowedOrigins.length > 0 then
        match cfg.AllowedOrigins.find?
            (fun allowedOrigin => allowedOrigin == "*" || allowedOrigin == r.origin) with
        | some allowedOrigin => hs1.set "Access-Control-Allow-Origin" allowedOrigin
        | none => hs1
      else hs1
    let hs3 := hs2.set "Access-Control-Allow-Methods" "GET, POST"
    let hs4 :=
      if cfg.AllowedMethods.length > 0 then
        hs3.set "Access-Control-Allow-Methods" (goStringSliceFormat cfg.AllowedMethods)
      else hs3
    let hs5 := hs4.set "Access-Control-Allow-Headers" "Content-Type, Authorization"
    let hs6 :=
      if cfg.AllowedHeaders.length > 0 then
        hs5.set "Access-Control-Allow-Headers" (goStringSliceFormat cfg.AllowedHeaders)
      else hs5
    hs6
  else hs

/-- The cache-suppression headers set on lines 111-114 of src/main.go. -/
def withCacheHeaders (hs : Headers) : Headers :=
  (((hs.set "Cache-Control" "no-store, no-cache, must-revalidate, proxy-revalidate").set
      "Expires" "0").set
      "Pragma" "no-cache").set
      "Surrogate-Control" "no-store"

/-- The candidate-file filter of src/main.go lines 122-127: keep the
non-directory entries that pass the extension policy (or all of them when
the file-type check is disabled). -/
def validFilesOf (cfg : Config) (files : List DirEntry) : List DirEntry :=
  files.filter (fun file =>
    !file.isDir && (cfg.DisableFileTypeCheck || isValidExtension file.name cfg.AllowedExtensions))

/-- The entry picked by `validFiles[rand.Intn(len(validFiles))]`
(src/main.go line 135), with the random draw modelled by an arbitrary
index reduced modulo the list length.  The default entry is never used
when the candidate list is non-empty. -/
def selectedOf (cfg : Config) (files : List DirEntry) (randIdx : Nat) : DirEntry :=
  (validFilesOf cfg files).getD (randIdx % (validFilesOf cfg files).length)
    { name := "", isDir := false }

/-- `serveFavicon` (src/main.go lines 98-101): `http.ServeFile` on the
configured favicon path.  This function is defined in the Go source but
never registered on any route.  `http.ServeFile` answers 404 when the
file cannot be opened. -/
def serveFavicon (fs : FileSystem) (faviconPath : String) : Response :=
  match fs.readFile faviconPath with
  | some bytes => { status := 200, headers := emptyHeaders, body := bytes }
  | none => { status := 404, headers := emptyHeaders, body := [] }

/-- `serveRandomImage` (src/main.go lines 104-142): referer gate, then
CORS and cache headers, then list the configured image directory, filter,
pick a pseudo-random entry and redirect to it or serve its bytes
according to `Mode`.  The `verbose` flag only affects logging in other
revisions and is unused in this one.  Returns the response together with
the ordered filesystem events performed. -/
def serveRandomImage (fs : FileSystem) (cfg : Config) (r : Request) (randIdx : Nat) :
    Response × List FsEvent :=
  if cfg.RefererRestriction && !(validateReferer r.referer cfg.AllowedReferers) then
    ({ status := 403, headers := emptyHeaders, body := [] }, [])
  else
    let hs := withCacheHeaders (handleCORS cfg r emptyHeaders)
    match fs.readDir cfg.ImageDir with
    | none => ({ status := 500, headers := hs, body := [] }, [FsEvent.dirRead cfg.ImageDir])
    | some files =>
      if (validFilesOf cfg files).length = 0 then
        ({ status := 404, headers := hs, body := [] }, [FsEvent.dirRead cfg.ImageDir])
      else
        let selectedFile := selectedOf cfg files randIdx
        if cfg.Mode = "redir" then
          ({ status := 302,
             headers := hs.set "Location" ("/" ++ goJoin cfg.ImageDir selectedFile.name),
             body := [] },
           [FsEvent.dirRead cfg.ImageDir])
        else
          match fs.readFile (goJoin cfg.ImageDir selectedFile.name) with
          | some bytes =>
            ({ status := 200, headers := hs, body := bytes },
             [FsEvent.dirRead cfg.ImageDir,
              FsEvent.fileRead (goJoin cfg.ImageDir selectedFile.name)])
          | none =>
            ({ status := 500, headers := hs, body := [] },
             [FsEvent.dirRead cfg.ImageDir,
              FsEvent.fileRead (goJoin cfg.ImageDir selectedFile.name)])

/-- The routing set up in `main` (src/main.go lines 153-155): the only
registered pattern is `"/"`, which on Go's default `ServeMux` matches
every request path, so every request — `/favicon.ico` included — is
handled by `serveRandomImage`. -/
def routeRequest (fs : FileSystem) (cfg : Config) (r : Request) (randIdx : Nat) :
    Response × List FsEvent :=
  serveRandomImage fs cfg r randIdx

/-- Modelled from the spec: the directory-resolution rule of spec section
4.1, which src/main.go does not implement (the `source` query parameter
and the `ParamRedirects` mapping are never read by the handler).  If the
`source` query parameter is present and is a key of the source mapping,
the effective directory is the mapped path; otherwise it is the default
image directory. -/
def specEffectiveDir (cfg : Config) (r : Request) : String :=
  match r.queryParams.find? (fun p => p.1 == "source") with
  | some p =>
    match cfg.ParamRedirects.find? (fun m => m.1 == p.2) with
    | some m => m.2
    | none => cfg.ImageDir
  | none => cfg.ImageDir

/-- A typical configuration value, used to build concrete instances in
witness statements. -/
def cfgBase : Config where
  Port := "8098"
  ImageDir := "images"
  AllowedExtensions := [".jpg", ".png", ".gif", ".webp"]
  DisableFileTypeCheck := false
  FaviconPath := "assets/favicon.ico"
  CorsEnabled := false
  AllowedOrigins := []
  AllowedMethods := []
  AllowedHeaders := []
  Mode := "direct"
  ParamRedirects := []
  RefererRestriction := false
  AllowedReferers := []

/-- A plain request to the root path, used to build concrete instances in
witness statements. -/
def reqBase : Request where
  path := "/"
  queryParams := []
  referer := ""
  origin := ""

theorem Headers.get_set_same (hs : Headers) (k v : String) : hs.set k v k = some v := by
  simp [Headers.set]

theorem Headers.get_set_ne (hs : Headers) (k v k2 : String) (h : k2 ≠ k) :
    hs.set k v k2 = hs k2 := by
  simp [Headers.set, h]

theorem isValidExtension_iff (name : String) (exts : List String) :
    isValidExtension name exts = true ↔ goExt name ∈ exts := by
  unfold isValidExtension
  rw [List.any_eq_true]
  constructor
  · rintro ⟨x, hx, he⟩
    rw [beq_iff_eq] at he
    exact he ▸ hx
  · intro h
    exact ⟨goExt name, h, beq_self_eq_true _⟩

/-- C6: for every directory listing, when the file-type-check bypass flag
is false the candidate set equals exactly the non-directory entries whose
extension (the suffix from the last dot, leading dot included, compared
case-sensitively) is a member of the configured allowed-extensions list,
and when the bypass flag is true it equals all non-directory entries
regardless of extension. -/
theorem C6_candidate_set (cfg : Config) (files : List DirEntry) :
    (cfg.DisableFileTypeCheck = false →
      validFilesOf cfg files =
        files.filter (fun f => decide (f.isDir = false ∧ goExt f.name ∈ cfg.AllowedExtensions))) ∧
    (cfg.DisableFileTypeCheck = true →
      validFilesOf cfg files = files.filter (fun f => !f.isDir)) := by
  constructor
  · intro h
    unfold validFilesOf
    apply List.filter_congr
    intro f _
    rw [h]
    simp only [← isValidExtension_iff]
    cases hd : f.isDir <;>
      cases hv : isValidExtension f.name cfg.AllowedExtensions <;> simp
  · intro h
    unfold validFilesOf
    apply List.filter_congr
    intro f _
    rw [h]
    simp

/-- Witness for C6 on the spec's own scenario: `a.jpg`, `b.png`,
`note.txt` and a subdirectory, with allowed extensions `.jpg`/`.png`,
once with the bypass off and once with it on. -/
theorem C6_candidate_set_witness :
    (validFilesOf { cfgBase with AllowedExtensions := [".jpg", ".png"] }
        [⟨"a.jpg", false⟩, ⟨"b.png", false⟩, ⟨"note.txt", false⟩, ⟨"sub", true⟩] =
      [⟨"a.jpg", false⟩, ⟨"b.png", false⟩, ⟨"note.txt", false⟩, ⟨"sub", true⟩].filter
        (fun f => decide (f.isDir = false ∧
          goExt f.name ∈ ({ cfgBase with AllowedExtensions := [".jpg", ".png"]} :
            Config).AllowedExtensions))) ∧
    (validFilesOf { cfgBase with DisableFileTypeCheck := true }
        [⟨"a.jpg", false⟩, ⟨"note.txt", false⟩, ⟨"sub", true⟩] =
      [⟨"a.jpg", false⟩, ⟨"note.txt", false⟩, ⟨"sub", true⟩].filter (fun f => !f.isDir)) :=
  ⟨(C6_candidate_set { cfgBase with AllowedExtensions := [".jpg", ".png"] } _).1 rfl,
   (C6_candidate_set { cfgBase with DisableFileTypeCheck := true } _).2 rfl⟩

/-- A filesystem whose `images` directory holds the single file `x.jpg`,
used as a concrete input in several statements. -/
def fsOneJpg : FileSystem where
  readDir := fun p => if p = "images" then some [{ name := "x.jpg", isDir := false }] else none
  readFile := fun p => if p = "images/x.jpg" then some [120, 1, 2] else none

/-- The claim of C2 is false on the code for an empty allow-list: with the
referer check enabled, `allowed_referers` empty and a `Referer` value that
equals no entry of that (empty) list, the handler does not answer 403 —
`validateReferer` permits every request when the list is empty — and it
does read the image directory. -/
theorem C2_empty_allowlist_counterexample :
    (serveRandomImage fsOneJpg { cfgBase with RefererRestriction := true, Mode := "redir" }
        { reqBase with referer := "https://b.example" } 0).1.status = 302 ∧
    (serveRandomImage fsOneJpg { cfgBase with RefererRestriction := true, Mode := "redir" }
        { reqBase with referer := "https://b.example" } 0).2 =
      [FsEvent.dirRead "images"] := by
  constructor <;> decide

/-- C2 as amended: when the referer check is enabled and the configured
allow-list is non-empty, a request whose `Referer` equals no entry of the
list (plain string equality) gets status 403 and no directory listing or
file read is performed.  (When the list is empty the check permits every
request.) -/
theorem C2_referer_reject_nonempty (fs : FileSystem) (cfg : Config) (r : Request)
    (randIdx : Nat) (hflag : cfg.RefererRestriction = true)
    (hne : cfg.AllowedReferers ≠ [])
    (hmiss : ∀ a ∈ cfg.AllowedReferers, r.referer ≠ a) :
    (serveRandomImage fs cfg r randIdx).1.status = 403 ∧
    (serveRandomImage fs cfg r randIdx).2 = [] := by
  have hv : validateReferer r.referer cfg.AllowedReferers = false := by
    unfold validateReferer
    rw [if_neg (fun h => hne (List.isEmpty_iff.mp h))]
    rw [List.any_eq_false]
    intro a ha
    simp only [beq_iff_eq]
    exact hmiss a ha
  unfold serveRandomImage
  rw [hflag, hv]
  simp

/-- Witness for C2: the spec's own scenario — allow-list
`["https://a.com"]`, request referer `https://b.com` — is rejected with
403 and no filesystem event. -/
theorem C2_referer_reject_nonempty_witness :
    (serveRandomImage fsOneJpg
        { cfgBase with RefererRestriction := true, AllowedReferers := ["https://a.com"] }
        { reqBase with referer := "https://b.com" } 0).1.status = 403 ∧
    (serveRandomImage fsOneJpg
        { cfgBase with RefererRestriction := true, AllowedReferers := ["https://a.com"] }
        { reqBase with referer := "https://b.com" } 0).2 = [] :=
  C2_referer_reject_nonempty fsOneJpg
    { cfgBase with RefererRestriction := true, AllowedReferers := ["https://a.com"] }
    { reqBase with referer := "https://b.com" } 0 rfl (by decide) (by decide)

/-- A filesystem whose `images` directory holds only `note.txt`, so that
the default extension policy leaves no candidate. -/
def fsNoteOnly : FileSystem where
  readDir := fun p => if p = "images" then some [{ name := "note.txt", isDir := false }] else none
  readFile := fun _ => none

/-- C7: for every request that passes the referer gate, a failed
directory read answers 500, and a successful read with an empty candidate
set answers 404; in both cases the directory read is the only filesystem
access and no file is served. -/
theorem C7_dir_error_and_empty (fs : FileSystem) (cfg : Config) (r : Request) (randIdx : Nat)
    (href : (cfg.RefererRestriction && !(validateReferer r.referer cfg.AllowedReferers)) = false) :
    (fs.readDir cfg.ImageDir = none →
      (serveRandomImage fs cfg r randIdx).1.status = 500 ∧
      (serveRandomImage fs cfg r randIdx).2 = [FsEvent.dirRead cfg.ImageDir]) ∧
    (∀ files, fs.readDir cfg.ImageDir = some files → validFilesOf cfg files = [] →
      (serveRandomImage fs cfg r randIdx).1.status = 404 ∧
      (serveRandomImage fs cfg r randIdx).2 = [FsEvent.dirRead cfg.ImageDir]) := by
  constructor
  · intro hdir
    unfold serveRandomImage
    rw [href, hdir]
    simp
  · intro files hdir hempty
    unfold serveRandomImage
    rw [href, hdir]
    simp [hempty]

/-- Witness for C7: a missing directory yields 500, and a directory
holding only `note.txt` under the default extension list yields 404; in
both cases the only filesystem event is the directory read. -/
theorem C7_dir_error_and_empty_witness :
    ((serveRandomImage fsOneJpg { cfgBase with ImageDir := "missing" } reqBase 0).1.status = 500 ∧
      (serveRandomImage fsOneJpg { cfgBase with ImageDir := "missing" } reqBase 0).2 =
        [FsEvent.dirRead "missing"]) ∧
    ((serveRandomImage fsNoteOnly cfgBase reqBase 0).1.status = 404 ∧
      (serveRandomImage fsNoteOnly cfgBase reqBase 0).2 = [FsEvent.dirRead "images"]) :=
  ⟨(C7_dir_error_and_empty fsOneJpg { cfgBase with ImageDir := "missing" } reqBase 0 rfl).1
      (by decide),
   (C7_dir_error_and_empty fsNoteOnly cfgBase reqBase 0 rfl).2
      [{ name := "note.txt", isDir := false }] (by decide) (by decide)⟩

/-- C8: for every request that passes the referer gate and finds a
non-empty candidate set, mode `redir` answers 302 with a `Location`
header equal to `/` followed by the join of the effective directory and
the selected file name, and mode `direct` answers 200 carrying the
selected file's bytes. -/
theorem C8_mode_branches (fs : FileSystem) (cfg : Config) (r : Request) (randIdx : Nat)
    (files : List DirEntry)
    (href : (cfg.RefererRestriction && !(validateReferer r.referer cfg.AllowedReferers)) = false)
    (hdir : fs.readDir cfg.ImageDir = some files)
    (hne : (validFilesOf cfg files).length ≠ 0) :
    (cfg.Mode = "redir" →
      (serveRandomImage fs cfg r randIdx).1.status = 302 ∧
      (serveRandomImage fs cfg r randIdx).1.headers "Location" =
        some ("/" ++ goJoin cfg.ImageDir (selectedOf cfg files randIdx).name)) ∧
    (cfg.Mode = "direct" → ∀ bytes,
      fs.readFile (goJoin cfg.ImageDir (selectedOf cfg files randIdx).name) = some bytes →
      (serveRandomImage fs cfg r randIdx).1.status = 200 ∧
      (serveRandomImage fs cfg r randIdx).1.body = bytes) := by
  constructor
  · intro hmode
    unfold serveRandomImage
    rw [href, hdir]
    simp [hne, hmode, Headers.get_set_same]
  · intro hmode bytes hread
    unfold serveRandomImage
    rw [href, hdir]
    simp [hne, hmode, hread]

/-- Witness for C8: one file `x.jpg` in `images`; in redirect mode the
response is a 302 with `Location: /images/x.jpg`, in direct mode a 200
carrying that file's bytes. -/
theorem C8_mode_branches_witness :
    ((serveRandomImage fsOneJpg { cfgBase with Mode := "redir" } reqBase 0).1.status = 302 ∧
      (serveRandomImage fsOneJpg { cfgBase with Mode := "redir" } reqBase 0).1.headers
        "Location" = some "/images/x.jpg") ∧
    ((serveRandomImage fsOneJpg cfgBase reqBase 0).1.status = 200 ∧
      (serveRandomImage fsOneJpg cfgBase reqBase 0).1.body = [120, 1, 2]) :=
  ⟨(C8_mode_branches fsOneJpg { cfgBase with Mode := "redir" } reqBase 0
      [{ name := "x.jpg", isDir := false }] rfl (by decide) (by decide)).1 rfl,
   (C8_mode_branches fsOneJpg cfgBase reqBase 0
      [{ name := "x.jpg", isDir := false }] rfl (by decide) (by decide)).2 rfl
      [120, 1, 2] (by decide)⟩

/-- C10: any mode string other than `redir` — the empty string and
unrecognized values included — takes the direct-serving branch: 200 with
the selected file's bytes; no mode value is rejected. -/
theorem C10_non_redir_serves_direct (fs : FileSystem) (cfg : Config) (r : Request)
    (randIdx : Nat) (files : List DirEntry) (bytes : List Nat)
    (href : (cfg.RefererRestriction && !(validateReferer r.referer cfg.AllowedReferers)) = false)
    (hdir : fs.readDir cfg.ImageDir = some files)
    (hne : (validFilesOf cfg files).length ≠ 0)
    (hmode : cfg.Mode ≠ "redir")
    (hread : fs.readFile (goJoin cfg.ImageDir (selectedOf cfg files randIdx).name) = some bytes) :
    (serveRandomImage fs cfg r randIdx).1.status = 200 ∧
    (serveRandomImage fs cfg r randIdx).1.body = bytes := by
  unfold serveRandomImage
  rw [href, hdir]
  simp [hne, hmode, hread]

/-- Witness for C10: an empty mode string serves the file bytes directly
with status 200. -/
theorem C10_non_redir_serves_direct_witness :
    (serveRandomImage fsOneJpg { cfgBase with Mode := "" } reqBase 0).1.status = 200 ∧
    (serveRandomImage fsOneJpg { cfgBase with Mode := "" } reqBase 0).1.body = [120, 1, 2] :=
  C10_non_redir_serves_direct fsOneJpg { cfgBase with Mode := "" } reqBase 0
    [{ name := "x.jpg", isDir := false }] [120, 1, 2] rfl (by decide) (by decide)
    (by decide) (by decide)

theorem withCacheHeaders_cache_lookups (hs : Headers) :
    withCacheHeaders hs "Cache-Control" =
      some "no-store, no-cache, must-revalidate, proxy-revalidate" ∧
    withCacheHeaders hs "Expires" = some "0" ∧
    withCacheHeaders hs "Pragma" = some "no-cache" := by
  refine ⟨?_, ?_, ?_⟩ <;> simp [withCacheHeaders, Headers.set]

/-- C9: every 200 or 302 response of the image handler carries
`Cache-Control: no-store, no-cache, must-revalidate, proxy-revalidate`,
`Expires: 0` and `Pragma: no-cache`. -/
theorem C9_cache_headers (fs : FileSystem) (cfg : Config) (r : Request) (randIdx : Nat)
    (h : (serveRandomImage fs cfg r randIdx).1.status = 200 ∨
      (serveRandomImage fs cfg r randIdx).1.status = 302) :
    (serveRandomImage fs cfg r randIdx).1.headers "Cache-Control" =
      some "no-store, no-cache, must-revalidate, proxy-revalidate" ∧
    (serveRandomImage fs cfg r randIdx).1.headers "Expires" = some "0" ∧
    (serveRandomImage fs cfg r randIdx).1.headers "Pragma" = some "no-cache" := by
  by_cases href : (cfg.RefererRestriction && !(validateReferer r.referer cfg.AllowedReferers))
      = true
  · unfold serveRandomImage at h
    rw [if_pos href] at h
    simp at h
  · rw [Bool.not_eq_true] at href
    rcases hdir : fs.readDir cfg.ImageDir with _ | files
    · unfold serveRandomImage at h
      simp [href, hdir] at h
    · by_cases hlen : (validFilesOf cfg files).length = 0
      · unfold serveRandomImage at h
        simp [href, hdir, hlen] at h
      · by_cases hmode : cfg.Mode = "redir"
        · unfold serveRandomImage
          simp [href, hdir, hlen, hmode]
          refine ⟨?_, ?_, ?_⟩ <;> rw [Headers.get_set_ne]
          · exact (withCacheHeaders_cache_lookups _).1
          · decide
          · exact (withCacheHeaders_cache_lookups _).2.1
          · decide
          · exact (withCacheHeaders_cache_lookups _).2.2
          · decide
        · rcases hread : fs.readFile (goJoin cfg.ImageDir (selectedOf cfg files randIdx).name)
            with _ | bytes
          · unfold serveRandomImage at h
            simp [href, hdir, hlen, hmode, hread] at h
          · unfold serveRandomImage
            simp [href, hdir, hlen, hmode, hread]
            exact withCacheHeaders_cache_lookups _

/-- Witness for C9: the concrete 302 of the redirect configuration
carries all three cache-suppression headers. -/
theorem C9_cache_headers_witness :
    (serveRandomImage fsOneJpg { cfgBase with Mode := "redir" } reqBase 0).1.headers
      "Cache-Control" = some "no-store, no-cache, must-revalidate, proxy-revalidate" ∧
    (serveRandomImage fsOneJpg { cfgBase with Mode := "redir" } reqBase 0).1.headers
      "Expires" = some "0" ∧
    (serveRandomImage fsOneJpg { cfgBase with Mode := "redir" } reqBase 0).1.headers
      "Pragma" = some "no-cache" :=
  C9_cache_headers fsOneJpg { cfgBase with Mode := "redir" } reqBase 0 (Or.inr (by decide))

theorem withCacheHeaders_other (hs : Headers) (k : String)
    (h1 : k ≠ "Cache-Control") (h2 : k ≠ "Expires") (h3 : k ≠ "Pragma")
    (h4 : k ≠ "Surrogate-Control") :
    withCacheHeaders hs k = hs k := by
  simp [withCacheHeaders, Headers.set, h1, h2, h3, h4]

theorem handleCORS_keys_isSome (cfg : Config) (r : Request) (hs : Headers)
    (hc : cfg.CorsEnabled = true) :
    (handleCORS cfg r hs "Access-Control-Allow-Origin").isSome = true ∧
    (handleCORS cfg r hs "Access-Control-Allow-Methods").isSome = true ∧
    (handleCORS cfg r hs "Access-Control-Allow-Headers").isSome = true := by
  unfold handleCORS
  rw [if_pos hc]
  by_cases ho : cfg.AllowedOrigins.length > 0 <;>
    by_cases hm : cfg.AllowedMethods.length > 0 <;>
    by_cases hh : cfg.AllowedHeaders.length > 0 <;>
    rcases hf : cfg.AllowedOrigins.find?
      (fun allowedOrigin => allowedOrigin == "*" || allowedOrigin == r.origin) with _ | o <;>
    simp [ho, hm, hh, hf, Headers.set]

theorem serveRandomImage_pass_headers (fs : FileSystem) (cfg : Config) (r : Request)
    (randIdx : Nat)
    (href : (cfg.RefererRestriction && !(validateReferer r.referer cfg.AllowedReferers))
      = false) :
    (serveRandomImage fs cfg r randIdx).1.headers =
        withCacheHeaders (handleCORS cfg r emptyHeaders) ∨
    ∃ v, (serveRandomImage fs cfg r randIdx).1.headers =
        (withCacheHeaders (handleCORS cfg r emptyHeaders)).set "Location" v := by
  unfold serveRandomImage
  rcases hdir : fs.readDir cfg.ImageDir with _ | files
  · simp [href, hdir]
  · by_cases hlen : (validFilesOf cfg files).length = 0
    · simp [href, hdir, hlen]
    · by_cases hmode : cfg.Mode = "redir"
      · simp only [href, Bool.false_eq_true, if_false, hdir]
        rw [if_neg hlen, if_pos hmode]
        exact Or.inr ⟨_, rfl⟩
      · rcases hread : fs.readFile (goJoin cfg.ImageDir (selectedOf cfg files randIdx).name)
          with _ | bytes <;>
          simp [href, hdir, hlen, hmode, hread]

/-- C4 is false as stated: with CORS enabled and a non-empty configured
methods list, the `Access-Control-Allow-Methods` value is Go's default
formatting of the string slice — bracketed and space-separated — not the
comma-joined list. -/
theorem C4_not_comma_joined_counterexample :
    handleCORS
        { cfgBase with CorsEnabled := true, AllowedMethods := ["GET", "POST", "OPTIONS"] }
        reqBase emptyHeaders "Access-Control-Allow-Methods" = some "[GET POST OPTIONS]" ∧
    "[GET POST OPTIONS]" ≠ "GET, POST, OPTIONS" ∧
    "[GET POST OPTIONS]" ≠ "GET,POST,OPTIONS" := by
  refine ⟨by decide, by decide, by decide⟩

/-- C4 as amended: with CORS enabled, the methods and headers response
values equal the hardcoded defaults `GET, POST` and
`Content-Type, Authorization` when the corresponding configured list is
empty, and equal `fmt.Sprintf("%s", list)` — the elements space-joined
between square brackets — when it is non-empty. -/
theorem C4_cors_list_headers (cfg : Config) (r : Request) (hs : Headers)
    (hc : cfg.CorsEnabled = true) :
    ((cfg.AllowedMethods = [] →
        handleCORS cfg r hs "Access-Control-Allow-Methods" = some "GET, POST") ∧
      (cfg.AllowedMethods ≠ [] →
        handleCORS cfg r hs "Access-Control-Allow-Methods" =
          some (goStringSliceFormat cfg.AllowedMethods))) ∧
    ((cfg.AllowedHeaders = [] →
        handleCORS cfg r hs "Access-Control-Allow-Headers" =
          some "Content-Type, Authorization") ∧
      (cfg.AllowedHeaders ≠ [] →
        handleCORS cfg r hs "Access-Control-Allow-Headers" =
          some (goStringSliceFormat cfg.AllowedHeaders))) := by
  unfold handleCORS
  rw [if_pos hc]
  refine ⟨⟨fun hm => ?_, fun hm => ?_⟩, ⟨fun hh => ?_, fun hh => ?_⟩⟩ <;>
    by_cases ho : cfg.AllowedOrigins.length > 0 <;>
    rcases hf : cfg.AllowedOrigins.find?
      (fun allowedOrigin => allowedOrigin == "*" || allowedOrigin == r.origin) with _ | o <;>
    by_cases h2 : cfg.AllowedHeaders.length > 0 <;>
    by_cases h3 : cfg.AllowedMethods.length > 0 <;>
    simp_all [Headers.set, List.length_pos]

/-- Witness for C4: with both lists empty the defaults are emitted; with
a non-empty methods list the bracketed space-joined form is emitted. -/
theorem C4_cors_list_headers_witness :
    handleCORS { cfgBase with CorsEnabled := true } reqBase emptyHeaders
      "Access-Control-Allow-Methods" = some "GET, POST" ∧
    handleCORS
        { cfgBase with CorsEnabled := true, AllowedMethods := ["GET", "POST", "OPTIONS"] }
        reqBase emptyHeaders "Access-Control-Allow-Methods" = some "[GET POST OPTIONS]" :=
  ⟨(C4_cors_list_headers { cfgBase with CorsEnabled := true } reqBase emptyHeaders rfl).1.1
      rfl,
   (C4_cors_list_headers
      { cfgBase with CorsEnabled := true, AllowedMethods := ["GET", "POST", "OPTIONS"] }
      reqBase emptyHeaders rfl).1.2 (by decide)⟩

/-- A configuration with CORS enabled and the referer check enabled with
allow-list `["https://a.com"]`. -/
def cfgCorsReferer : Config :=
  { cfgBase with
      CorsEnabled := true
      RefererRestriction := true
      AllowedReferers := ["https://a.com"] }

/-- C5 is false as stated: a 403 referer rejection with CORS enabled
carries no `Access-Control-*` header, because the rejection happens
before `handleCORS` runs. -/
theorem C5_forbidden_lacks_cors_counterexample :
    (serveRandomImage fsOneJpg cfgCorsReferer
        { reqBase with referer := "https://b.com" } 0).1.status = 403 ∧
    (serveRandomImage fsOneJpg cfgCorsReferer
        { reqBase with referer := "https://b.com" } 0).1.headers
      "Access-Control-Allow-Origin" = none ∧
    (serveRandomImage fsOneJpg cfgCorsReferer
        { reqBase with referer := "https://b.com" } 0).1.headers
      "Access-Control-Allow-Methods" = none := by
  refine ⟨by decide, by decide, by decide⟩

/-- C5 as amended: with CORS enabled, the CORS headers are set on every
response of a request that passes the referer gate — the 404 and 500
error responses included — but not on 403 referer rejections. -/
theorem C5_cors_after_referer_gate (fs : FileSystem) (cfg : Config) (r : Request)
    (randIdx : Nat) (hc : cfg.CorsEnabled = true)
    (href : (cfg.RefererRestriction && !(validateReferer r.referer cfg.AllowedReferers))
      = false) :
    ((serveRandomImage fs cfg r randIdx).1.headers "Access-Control-Allow-Origin").isSome
      = true ∧
    ((serveRandomImage fs cfg r randIdx).1.headers "Access-Control-Allow-Methods").isSome
      = true ∧
    ((serveRandomImage fs cfg r randIdx).1.headers "Access-Control-Allow-Headers").isSome
      = true := by
  have hco := handleCORS_keys_isSome cfg r emptyHeaders hc
  rcases serveRandomImage_pass_headers fs cfg r randIdx href with hsh | ⟨v, hsh⟩
  · rw [hsh]
    refine ⟨?_, ?_, ?_⟩ <;> rw [withCacheHeaders_other]
    · exact hco.1
    · decide
    · decide
    · decide
    · decide
    · exact hco.2.1
    · decide
    · decide
    · decide
    · decide
    · exact hco.2.2
    · decide
    · decide
    · decide
    · decide
  · rw [hsh]
    refine ⟨?_, ?_, ?_⟩ <;> rw [Headers.get_set_ne]
    · rw [withCacheHeaders_other]
      · exact hco.1
      · decide
      · decide
      · decide
      · decide
    · decide
    · rw [withCacheHeaders_other]
      · exact hco.2.1
      · decide
      · decide
      · decide
      · decide
    · decide
    · rw [withCacheHeaders_other]
      · exact hco.2.2
      · decide
      · decide
      · decide
      · decide
    · decide

/-- Witness for C5: a 404 response — only `note.txt` in the directory —
with CORS enabled carries all three `Access-Control-*` headers. -/
theorem C5_cors_after_referer_gate_witness :
    ((serveRandomImage fsNoteOnly { cfgBase with CorsEnabled := true } reqBase 0).1.headers
        "Access-Control-Allow-Origin").isSome = true ∧
    ((serveRandomImage fsNoteOnly { cfgBase with CorsEnabled := true } reqBase 0).1.headers
        "Access-Control-Allow-Methods").isSome = true ∧
    ((serveRandomImage fsNoteOnly { cfgBase with CorsEnabled := true } reqBase 0).1.headers
        "Access-Control-Allow-Headers").isSome = true :=
  C5_cors_after_referer_gate fsNoteOnly { cfgBase with CorsEnabled := true } reqBase 0 rfl rfl

/-- A configuration carrying the documented source mapping
`dogs ↦ images/dogs`, in redirect mode. -/
def cfgSourceMap : Config :=
  { cfgBase with
      Mode := "redir"
      ParamRedirects := [("dogs", "images/dogs")] }

/-- A filesystem where the default directory `images` holds `cat.jpg` and
the mapped directory `images/dogs` holds exactly one file `x.jpg`. -/
def fsDogs : FileSystem where
  readDir := fun p =>
    if p = "images" then some [{ name := "cat.jpg", isDir := false }]
    else if p = "images/dogs" then some [{ name := "x.jpg", isDir := false }]
    else none
  readFile := fun _ => none

/-- A request for `/?source=dogs`. -/
def reqSourceDogs : Request := { reqBase with queryParams := [("source", "dogs")] }

/-- C1 fails on the code: the handler never reads the `source` query
parameter or the source-to-directory mapping.  With `source=dogs` mapped
to `images/dogs` (holding exactly one file `x.jpg`), the spec's effective
directory is `images/dogs`, yet for every random draw the code lists only
the default directory `images` and redirects to its `cat.jpg`, never to
`x.jpg`. -/
theorem C1_source_param_ignored :
    specEffectiveDir cfgSourceMap reqSourceDogs = "images/dogs" ∧
    (∀ randIdx : Nat,
      (serveRandomImage fsDogs cfgSourceMap reqSourceDogs randIdx).2 =
        [FsEvent.dirRead "images"] ∧
      (serveRandomImage fsDogs cfgSourceMap reqSourceDogs randIdx).1.headers "Location" =
        some "/images/cat.jpg") := by
  refine ⟨by decide, fun i => ?_⟩
  have hsel : selectedOf cfgSourceMap [{ name := "cat.jpg", isDir := false }] i =
      { name := "cat.jpg", isDir := false } := by
    unfold selectedOf
    rw [show validFilesOf cfgSourceMap [{ name := "cat.jpg", isDir := false }] =
      [{ name := "cat.jpg", isDir := false }] from by decide]
    simp [Nat.mod_one]
  unfold serveRandomImage
  rw [show (cfgSourceMap.RefererRestriction &&
    !(validateReferer reqSourceDogs.referer cfgSourceMap.AllowedReferers)) = false from
    by decide]
  rw [show fsDogs.readDir cfgSourceMap.ImageDir =
    some [{ name := "cat.jpg", isDir := false }] from by decide]
  simp only []
  rw [if_neg (show ¬(validFilesOf cfgSourceMap
    [{ name := "cat.jpg", isDir := false }]).length = 0 from by decide)]
  rw [if_pos (show cfgSourceMap.Mode = "redir" from rfl)]
  rw [hsel]
  rw [if_neg (show ¬(false = true) from by decide)]
  refine ⟨by decide, ?_⟩
  simp only []
  rw [Headers.get_set_same]
  decide

/-- A request for `/favicon.ico` (no referer). -/
def reqFavicon : Request := { reqBase with path := "/favicon.ico" }

/-- A filesystem holding both the favicon file and an image. -/
def fsFavicon : FileSystem where
  readDir := fun p => if p = "images" then some [{ name := "x.jpg", isDir := false }] else none
  readFile := fun p =>
    if p = "assets/favicon.ico" then some [0, 0, 1, 0]
    else if p = "images/x.jpg" then some [120, 1, 2] else none

/-- C3 fails on the code: `main` registers only the pattern `/`, which
matches every path, so `GET /favicon.ico` is dispatched to
`serveRandomImage` — `serveFavicon` is never registered on any route.
Concretely, with the referer check enabled the favicon request is
rejected with 403 and nothing is read, although `serveFavicon` itself
would deliver the configured favicon file. -/
theorem C3_favicon_not_fixed_route :
    routeRequest fsFavicon cfgCorsReferer reqFavicon 0 =
      serveRandomImage fsFavicon cfgCorsReferer reqFavicon 0 ∧
    (routeRequest fsFavicon cfgCorsReferer reqFavicon 0).1.status = 403 ∧
    (routeRequest fsFavicon cfgCorsReferer reqFavicon 0).2 = [] ∧
    (serveFavicon fsFavicon cfgCorsReferer.FaviconPath).status = 200 ∧
    (serveFavicon fsFavicon cfgCorsReferer.FaviconPath).body = [0, 0, 1, 0] := by
  refine ⟨rfl, by decide, by decide, by decide, by decide⟩

end Monikim
